import Mathlib

/-!
Shallow embedding of the McCabe-Thiele distillation script (src/main.py).
All floating-point arithmetic of the script is modelled exactly over the
rationals; the Python while loops are modelled by structurally recursive
functions whose fuel argument mirrors the script's own iteration bounds.
-/

namespace McCabeThiele

/-- Mole fraction of benzene in feed (main.py line 7). -/
def xF : ℚ := 4/10

/-- Mole fraction of benzene in distillate (main.py line 8). -/
def xD : ℚ := 98/100

/-- Mole fraction of benzene in bottoms (main.py line 9). -/
def xW : ℚ := 2/100

/-- Operating reflux multiplier (main.py line 10). -/
def R_multiplier : ℚ := 15/10

/-- Saturated liquid feed condition (main.py line 11). -/
def q : ℚ := 1

/-- Column operating pressure in atm (main.py line 12). -/
def column_pressure : ℚ := 1

/-- Approximate vapor density in kg per cubic meter (main.py line 13). -/
def vapor_density : ℚ := 2

/-- Allowable vapor velocity in meters per second (main.py line 14). -/
def vapor_velocity : ℚ := 8/10

/-- Tray spacing in meters (main.py line 15). -/
def tray_spacing : ℚ := 6/10

/-- Liquid compositions of the equilibrium table, first column of
equilibrium_data (main.py lines 18-29). -/
def x_eq : List ℚ := [1/10, 2/10, 3/10, 4/10, 5/10, 6/10, 7/10, 8/10, 9/10]

/-- Vapor compositions of the equilibrium table, second column of
equilibrium_data (main.py lines 18-30). -/
def y_eq : List ℚ := [22/100, 39/100, 52/100, 63/100, 72/100, 80/100, 86/100, 92/100, 96/100]

/-- Linear scan of main.py lines 53-57: return the first equilibrium point
whose vapor composition exceeds xF.  The Python function implicitly returns
None when the scan finds no such point; this is modelled by Option.  The
xd argument is accepted and ignored, exactly as in the source. -/
def find_intersection : List ℚ → List ℚ → ℚ → ℚ → Option (ℚ × ℚ)
  | x :: xs, y :: ys, xf, xd =>
    if y > xf then some (x, y) else find_intersection xs ys xf xd
  | _, _, _, _ => none

/-- Result of the script's find_intersection call (main.py line 58). -/
def xiEyiE : Option (ℚ × ℚ) := find_intersection x_eq y_eq xF xD

/-- First component of the tuple unpacked at main.py line 58.  The script
would raise at runtime were the lookup to return None; the default (0, 0)
of this model is never used for the script's configuration. -/
def xiE : ℚ := (xiEyiE.getD (0, 0)).1

/-- Second component of the tuple unpacked at main.py line 58. -/
def yiE : ℚ := (xiEyiE.getD (0, 0)).2

/-- Minimum reflux ratio (main.py line 59). -/
def R_min : ℚ := (xD - yiE) / (yiE - xiE)

/-- Operating reflux ratio (main.py line 62). -/
def R : ℚ := R_multiplier * R_min

/-- Liquid composition at the rectifying/stripping intersection
(main.py line 82). -/
def xiF : ℚ :=
  if q ≠ 1 then (xF / (q - 1) + xD / (R + 1)) / (q / (q - 1) - R / (R + 1)) else xF

/-- Vapor composition at the rectifying/stripping intersection
(main.py line 83). -/
def yiF : ℚ := R / (R + 1) * xiF + xD / (R + 1)

/-- Model of numpy.linspace: n evenly spaced samples from a to b inclusive. -/
def linspace (a b : ℚ) (n : ℕ) : List ℚ :=
  (List.range n).map (fun k => a + (b - a) * k / ((n : ℚ) - 1))

/-- Feed line construction (main.py lines 38-48): a vertical segment for a
saturated liquid feed, otherwise a sloped line sampled over [0, 1]. -/
def feed_line (xf qq : ℚ) : List ℚ × List ℚ :=
  if qq = 1 then ([xf, xf], [0, 1])
  else
    let slope := qq / (qq - 1)
    let intercept := -xf / (qq - 1)
    let xfeed := linspace 0 1 100
    (xfeed, xfeed.map (fun x => slope * x + intercept))

/-- While loop of binary_search_interpolate (main.py lines 92-100).  The
integer cursors low and high evolve exactly as in the source; mid is
(low + high) / 2, whose operands are nonnegative whenever it is evaluated,
so Lean's integer division agrees with Python's floor division here.  A
left exit (Sum.inl) is the exact-match return from inside the loop, a
right exit (Sum.inr) carries the final value of low to the interpolation
code after the loop.  The fuel argument only bounds the recursion; the
search halves the bracket each pass, so the fuel chosen by
binary_search_interpolate is never exhausted (no result is returned if it
were). -/
def bsiLoop (y_target : ℚ) (xe ye : List ℚ) : ℤ → ℤ → ℕ → Option (ℚ ⊕ ℤ)
  | _, _, 0 => none
  | low, high, fuel + 1 =>
    if low ≤ high then
      if ye.getD ((low + high) / 2).toNat 0 < y_target then
        bsiLoop y_target xe ye ((low + high) / 2 + 1) high fuel
      else if y_target < ye.getD ((low + high) / 2).toNat 0 then
        bsiLoop y_target xe ye low ((low + high) / 2 - 1) fuel
      else some (Sum.inl (xe.getD ((low + high) / 2).toNat 0))
    else some (Sum.inr low)

/-- Model of binary_search_interpolate (main.py lines 87-110): binary
search for y_target on the tabulated vapor compositions followed by the
post-loop clamp/interpolation on the final low cursor. -/
def binary_search_interpolate (y_target : ℚ) (xe ye : List ℚ) : Option ℚ :=
  match bsiLoop y_target xe ye 0 ((ye.length : ℤ) - 1) (ye.length + 1) with
  | none => none
  | some (Sum.inl x) => some x
  | some (Sum.inr low) =>
    if low = 0 then some (xe.getD 0 0)
    else if (ye.length : ℤ) ≤ low then some (xe.getD (xe.length - 1) 0)
    else
      some (xe.getD (low - 1).toNat 0 +
        (y_target - ye.getD (low - 1).toNat 0) *
          (xe.getD low.toNat 0 - xe.getD (low - 1).toNat 0) /
          (ye.getD low.toNat 0 - ye.getD (low - 1).toNat 0))

/-- Vapor composition computed at the top of each stage-stepping iteration
(main.py lines 122-125): rectifying-line equation when the liquid
composition is right of the intersection, stripping-line equation
otherwise. -/
def stepVapor (Rv xDv xWv xiFv yiFv x : ℚ) : ℚ :=
  if x > xiFv then Rv / (Rv + 1) * x + xDv / (Rv + 1)
  else (yiFv - xWv) / (xiFv - xWv) * (x - xWv) + xWv

/-- Tolerance used to stop the stage loop near xW (main.py line 114). -/
def tolerance : ℚ := 1/10000

/-- Iteration cap of the stage loop (main.py line 115). -/
def max_iterations : ℕ := 1000

/-- Stage-stepping while loop (main.py lines 118-139).  The fuel argument
counts the iterations still allowed and the ic argument mirrors the
script's iteration_count, incremented at the top of each pass; the loop is
entered with fuel = max_iterations and ic = 0, so the source's guard
iteration_count < max_iterations is exactly fuel > 0.  The loop returns
the accumulated stage list together with the final iteration count; it
returns none only if the equilibrium inversion fails, which the script
would surface as an exception. -/
def mcCabeLoop (Rv xDv xWv xiFv yiFv tol : ℚ) (xe ye : List ℚ) :
    ℕ → ℚ → List (ℚ × ℚ) → ℕ → Option (List (ℚ × ℚ) × ℕ)
  | 0, _, stages, ic => some (stages, ic)
  | fuel + 1, current_x, stages, ic =>
    if current_x > xWv + tol then
      let current_y := stepVapor Rv xDv xWv xiFv yiFv current_x
      match binary_search_interpolate current_y xe ye with
      | none => none
      | some next_x =>
        let stages' := stages ++ [(current_x, current_y), (next_x, current_y)]
        if |current_x - next_x| < tol then some (stages', ic + 1)
        else mcCabeLoop Rv xDv xWv xiFv yiFv tol xe ye fuel next_x stages' (ic + 1)
    else some (stages, ic)

/-- Result of the script's stage-stepping loop run from current_x = xD
(main.py lines 112-139). -/
def stagesResult : Option (List (ℚ × ℚ) × ℕ) :=
  mcCabeLoop R xD xW xiF yiF tolerance x_eq y_eq max_iterations xD [] 0

/-- Stage list built by the loop (main.py variable stages). -/
def stages : List (ℚ × ℚ) := (stagesResult.getD ([], 0)).1

/-- Final value of the script's iteration_count. -/
def iteration_count : ℕ := (stagesResult.getD ([], 0)).2

/-- Number of theoretical stages reported by the script
(main.py line 179). -/
def numberOfStages : ℕ := stages.length / 2

/-- Feed stage reported by the script (main.py line 180): the number of
recorded stage points strictly right of the intersection. -/
def feedStage : ℕ := (stages.filter (fun s => decide (s.1 > xiF))).length

/-- Warning condition checked after the loop (main.py line 142). -/
def warning_printed (ic : ℕ) : Prop := max_iterations ≤ ic

/-- First components of the stage points at odd positions: these are the
next_x values produced by the equilibrium inversion, one per iteration. -/
def oddFirsts : List (ℚ × ℚ) → List ℚ
  | _ :: b :: rest => b.1 :: oddFirsts rest
  | _ => []

/-- Successive values taken by current_x during the stage loop: the
starting distillate composition followed by each iteration's next_x. -/
def currentXSeq : List ℚ := xD :: oddFirsts stages

/-- Volumetric vapor flow rate in cubic meters per second
(main.py line 146). -/
def volumetric_flow_rate : ℚ := 100/3600

/-- Column diameter (main.py line 147). -/
noncomputable def column_diameter : ℝ :=
  Real.sqrt (4 * (volumetric_flow_rate : ℝ) / (Real.pi * (vapor_velocity : ℝ)))

/-- Configuration record collecting the script's compile-time constants
(main.py lines 7-28), as the specification asks a reimplementation to
expose them. -/
structure Config where
  xF : ℚ
  xD : ℚ
  xW : ℚ
  R_multiplier : ℚ
  q : ℚ
  vapor_velocity : ℚ
  vapor_density : ℚ
  tray_spacing : ℚ
  column_pressure : ℚ
  x_eq : List ℚ
  y_eq : List ℚ

/-- Configuration holding exactly the constants of main.py. -/
def defaultConfig : Config :=
  ⟨xF, xD, xW, R_multiplier, q, vapor_velocity, vapor_density, tray_spacing,
    column_pressure, x_eq, y_eq⟩

/-- Full numeric pipeline of the script as a function of the
configuration: minimum reflux, operating reflux and stage count (none when
the R_min lookup or the equilibrium inversion finds nothing), paired with
the column diameter. -/
noncomputable def pipeline (c : Config) : Option (ℚ × ℚ × ℕ) × ℝ :=
  (match find_intersection c.x_eq c.y_eq c.xF c.xD with
    | none => none
    | some (xi, yi) =>
      let Rmin := (c.xD - yi) / (yi - xi)
      let Rop := c.R_multiplier * Rmin
      let xiFv :=
        if c.q ≠ 1 then
          (c.xF / (c.q - 1) + c.xD / (Rop + 1)) / (c.q / (c.q - 1) - Rop / (Rop + 1))
        else c.xF
      let yiFv := Rop / (Rop + 1) * xiFv + c.xD / (Rop + 1)
      match mcCabeLoop Rop c.xD c.xW xiFv yiFv tolerance c.x_eq c.y_eq
          max_iterations c.xD [] 0 with
      | none => none
      | some (l, _) => some (Rmin, Rop, l.length / 2),
    Real.sqrt (4 * (volumetric_flow_rate : ℝ) / (Real.pi * (c.vapor_velocity : ℝ))))

section
attribute [local semireducible] Rat.add Rat.mul Rat.inv Rat.sub

/-! Helper lemmas describing single passes of the binary-search loop. -/

/-- Step lemma: a pass of the search loop that moves the low cursor right. -/
theorem bsiLoop_go_right (y : ℚ) (xe ye : List ℚ) (low high mid mid' : ℤ) (f f' : ℕ) (v : ℚ)
    (hf : f = f' + 1) (hm : (low + high) / 2 = mid) (hm' : mid + 1 = mid')
    (hv : ye.getD mid.toNat 0 = v) (hlh : low ≤ high) (h : v < y) :
    bsiLoop y xe ye low high f = bsiLoop y xe ye mid' high f' := by
  subst hf; subst hm'; subst hm; subst hv
  simp only [bsiLoop]
  rw [if_pos hlh, if_pos h]

/-- Step lemma: a pass of the search loop that moves the high cursor left. -/
theorem bsiLoop_go_left (y : ℚ) (xe ye : List ℚ) (low high mid mid' : ℤ) (f f' : ℕ) (v : ℚ)
    (hf : f = f' + 1) (hm : (low + high) / 2 = mid) (hm' : mid - 1 = mid')
    (hv : ye.getD mid.toNat 0 = v) (hlh : low ≤ high) (h : y < v) :
    bsiLoop y xe ye low high f = bsiLoop y xe ye low mid' f' := by
  subst hf; subst hm'; subst hm; subst hv
  simp only [bsiLoop]
  rw [if_pos hlh, if_neg (lt_asymm h), if_pos h]

/-- Step lemma: the search loop exits once the cursors cross. -/
theorem bsiLoop_stop (y : ℚ) (xe ye : List ℚ) (low high : ℤ) (f f' : ℕ)
    (hf : f = f' + 1) (h : ¬ low ≤ high) :
    bsiLoop y xe ye low high f = some (Sum.inr low) := by
  subst hf
  simp only [bsiLoop]
  rw [if_neg h]

/-! Region lemmas: the value of the equilibrium inversion on each interval
cut out by the tabulated vapor compositions. -/

/-- Region lemma: targets below the lowest tabulated vapor value clamp to
the lowest tabulated liquid value. -/
theorem bsi_below (y : ℚ) (h : y < 22/100) :
    binary_search_interpolate y x_eq y_eq = some (1/10) := by
  have s1 := bsiLoop_go_left y x_eq y_eq 0 ((y_eq.length : ℤ) - 1) 4 3
    (y_eq.length + 1) 9 (72/100) (by decide) (by decide) (by decide) (by decide)
    (by decide) (by linarith)
  have s2 := bsiLoop_go_left y x_eq y_eq 0 3 1 0 9 8 (39/100)
    (by decide) (by decide) (by decide) (by decide) (by decide) (by linarith)
  have s3 := bsiLoop_go_left y x_eq y_eq 0 0 0 (-1) 8 7 (22/100)
    (by decide) (by decide) (by decide) (by decide) (by decide) h
  have s4 := bsiLoop_stop y x_eq y_eq 0 (-1) 7 6 (by decide) (by decide)
  unfold binary_search_interpolate
  rw [s1, s2, s3, s4]
  rfl

/-- Region lemma: targets above the highest tabulated vapor value clamp to
the highest tabulated liquid value. -/
theorem bsi_above (y : ℚ) (h : 96/100 < y) :
    binary_search_interpolate y x_eq y_eq = some (9/10) := by
  have s1 := bsiLoop_go_right y x_eq y_eq 0 ((y_eq.length : ℤ) - 1) 4 5
    (y_eq.length + 1) 9 (72/100) (by decide) (by decide) (by decide) (by decide)
    (by decide) (by linarith)
  have s2 := bsiLoop_go_right y x_eq y_eq 5 ((y_eq.length : ℤ) - 1) 6 7 9 8 (86/100)
    (by decide) (by decide) (by decide) (by decide) (by decide) (by linarith)
  have s3 := bsiLoop_go_right y x_eq y_eq 7 ((y_eq.length : ℤ) - 1) 7 8 8 7 (92/100)
    (by decide) (by decide) (by decide) (by decide) (by decide) (by linarith)
  have s4 := bsiLoop_go_right y x_eq y_eq 8 ((y_eq.length : ℤ) - 1) 8 9 7 6 (96/100)
    (by decide) (by decide) (by decide) (by decide) (by decide) h
  have s5 := bsiLoop_stop y x_eq y_eq 9 ((y_eq.length : ℤ) - 1) 6 5 (by decide) (by decide)
  unfold binary_search_interpolate
  rw [s1, s2, s3, s4, s5]
  rfl

/-- Region lemma: bracketing interval between the first and second table
points. -/
theorem bsi_seg0 (y : ℚ) (h1 : 22/100 < y) (h2 : y < 39/100) :
    binary_search_interpolate y x_eq y_eq =
      some (1/10 + (y - 22/100) * (2/10 - 1/10) / (39/100 - 22/100)) := by
  have s1 := bsiLoop_go_left y x_eq y_eq 0 ((y_eq.length : ℤ) - 1) 4 3
    (y_eq.length + 1) 9 (72/100) (by decide) (by decide) (by decide) (by decide)
    (by decide) (by linarith)
  have s2 := bsiLoop_go_left y x_eq y_eq 0 3 1 0 9 8 (39/100)
    (by decide) (by decide) (by decide) (by decide) (by decide) h2
  have s3 := bsiLoop_go_right y x_eq y_eq 0 0 0 1 8 7 (22/100)
    (by decide) (by decide) (by decide) (by decide) (by decide) h1
  have s4 := bsiLoop_stop y x_eq y_eq 1 0 7 6 (by decide) (by decide)
  unfold binary_search_interpolate
  rw [s1, s2, s3, s4]
  rfl

/-- Region lemma: bracketing interval between the second and third table
points. -/
theorem bsi_seg1 (y : ℚ) (h1 : 39/100 < y) (h2 : y < 52/100) :
    binary_search_interpolate y x_eq y_eq =
      some (2/10 + (y - 39/100) * (3/10 - 2/10) / (52/100 - 39/100)) := by
  have s1 := bsiLoop_go_left y x_eq y_eq 0 ((y_eq.length : ℤ) - 1) 4 3
    (y_eq.length + 1) 9 (72/100) (by decide) (by decide) (by decide) (by decide)
    (by decide) (by linarith)
  have s2 := bsiLoop_go_right y x_eq y_eq 0 3 1 2 9 8 (39/100)
    (by decide) (by decide) (by decide) (by decide) (by decide) h1
  have s3 := bsiLoop_go_left y x_eq y_eq 2 3 2 1 8 7 (52/100)
    (by decide) (by decide) (by decide) (by decide) (by decide) h2
  have s4 := bsiLoop_stop y x_eq y_eq 2 1 7 6 (by decide) (by decide)
  unfold binary_search_interpolate
  rw [s1, s2, s3, s4]
  rfl

/-- Region lemma: bracketing interval between the third and fourth table
points. -/
theorem bsi_seg2 (y : ℚ) (h1 : 52/100 < y) (h2 : y < 63/100) :
    binary_search_interpolate y x_eq y_eq =
      some (3/10 + (y - 52/100) * (4/10 - 3/10) / (63/100 - 52/100)) := by
  have s1 := bsiLoop_go_left y x_eq y_eq 0 ((y_eq.length : ℤ) - 1) 4 3
    (y_eq.length + 1) 9 (72/100) (by decide) (by decide) (by decide) (by decide)
    (by decide) (by linarith)
  have s2 := bsiLoop_go_right y x_eq y_eq 0 3 1 2 9 8 (39/100)
    (by decide) (by decide) (by decide) (by decide) (by decide) (by linarith)
  have s3 := bsiLoop_go_right y x_eq y_eq 2 3 2 3 8 7 (52/100)
    (by decide) (by decide) (by decide) (by decide) (by decide) h1
  have s4 := bsiLoop_go_left y x_eq y_eq 3 3 3 2 7 6 (63/100)
    (by decide) (by decide) (by decide) (by decide) (by decide) h2
  have s5 := bsiLoop_stop y x_eq y_eq 3 2 6 5 (by decide) (by decide)
  unfold binary_search_interpolate
  rw [s1, s2, s3, s4, s5]
  rfl

/-- Region lemma: bracketing interval between the fourth and fifth table
points. -/
theorem bsi_seg3 (y : ℚ) (h1 : 63/100 < y) (h2 : y < 72/100) :
    binary_search_interpolate y x_eq y_eq =
      some (4/10 + (y - 63/100) * (5/10 - 4/10) / (72/100 - 63/100)) := by
  have s1 := bsiLoop_go_left y x_eq y_eq 0 ((y_eq.length : ℤ) - 1) 4 3
    (y_eq.length + 1) 9 (72/100) (by decide) (by decide) (by decide) (by decide)
    (by decide) h2
  have s2 := bsiLoop_go_right y x_eq y_eq 0 3 1 2 9 8 (39/100)
    (by decide) (by decide) (by decide) (by decide) (by decide) (by linarith)
  have s3 := bsiLoop_go_right y x_eq y_eq 2 3 2 3 8 7 (52/100)
    (by decide) (by decide) (by decide) (by decide) (by decide) (by linarith)
  have s4 := bsiLoop_go_right y x_eq y_eq 3 3 3 4 7 6 (63/100)
    (by decide) (by decide) (by decide) (by decide) (by decide) h1
  have s5 := bsiLoop_stop y x_eq y_eq 4 3 6 5 (by decide) (by decide)
  unfold binary_search_interpolate
  rw [s1, s2, s3, s4, s5]
  rfl

/-- Region lemma: bracketing interval between the fifth and sixth table
points. -/
theorem bsi_seg4 (y : ℚ) (h1 : 72/100 < y) (h2 : y < 80/100) :
    binary_search_interpolate y x_eq y_eq =
      some (5/10 + (y - 72/100) * (6/10 - 5/10) / (80/100 - 72/100)) := by
  have s1 := bsiLoop_go_right y x_eq y_eq 0 ((y_eq.length : ℤ) - 1) 4 5
    (y_eq.length + 1) 9 (72/100) (by decide) (by decide) (by decide) (by decide)
    (by decide) h1
  have s2 := bsiLoop_go_left y x_eq y_eq 5 ((y_eq.length : ℤ) - 1) 6 5 9 8 (86/100)
    (by decide) (by decide) (by decide) (by decide) (by decide) (by linarith)
  have s3 := bsiLoop_go_left y x_eq y_eq 5 5 5 4 8 7 (80/100)
    (by decide) (by decide) (by decide) (by decide) (by decide) h2
  have s4 := bsiLoop_stop y x_eq y_eq 5 4 7 6 (by decide) (by decide)
  unfold binary_search_interpolate
  rw [s1, s2, s3, s4]
  rfl

/-- Region lemma: bracketing interval between the sixth and seventh table
points. -/
theorem bsi_seg5 (y : ℚ) (h1 : 80/100 < y) (h2 : y < 86/100) :
    binary_search_interpolate y x_eq y_eq =
      some (6/10 + (y - 80/100) * (7/10 - 6/10) / (86/100 - 80/100)) := by
  have s1 := bsiLoop_go_right y x_eq y_eq 0 ((y_eq.length : ℤ) - 1) 4 5
    (y_eq.length + 1) 9 (72/100) (by decide) (by decide) (by decide) (by decide)
    (by decide) (by linarith)
  have s2 := bsiLoop_go_left y x_eq y_eq 5 ((y_eq.length : ℤ) - 1) 6 5 9 8 (86/100)
    (by decide) (by decide) (by decide) (by decide) (by decide) h2
  have s3 := bsiLoop_go_right y x_eq y_eq 5 5 5 6 8 7 (80/100)
    (by decide) (by decide) (by decide) (by decide) (by decide) h1
  have s4 := bsiLoop_stop y x_eq y_eq 6 5 7 6 (by decide) (by decide)
  unfold binary_search_interpolate
  rw [s1, s2, s3, s4]
  rfl

/-- Region lemma: bracketing interval between the seventh and eighth table
points. -/
theorem bsi_seg6 (y : ℚ) (h1 : 86/100 < y) (h2 : y < 92/100) :
    binary_search_interpolate y x_eq y_eq =
      some (7/10 + (y - 86/100) * (8/10 - 7/10) / (92/100 - 86/100)) := by
  have s1 := bsiLoop_go_right y x_eq y_eq 0 ((y_eq.length : ℤ) - 1) 4 5
    (y_eq.length + 1) 9 (72/100) (by decide) (by decide) (by decide) (by decide)
    (by decide) (by linarith)
  have s2 := bsiLoop_go_right y x_eq y_eq 5 ((y_eq.length : ℤ) - 1) 6 7 9 8 (86/100)
    (by decide) (by decide) (by decide) (by decide) (by decide) h1
  have s3 := bsiLoop_go_left y x_eq y_eq 7 ((y_eq.length : ℤ) - 1) 7 6 8 7 (92/100)
    (by decide) (by decide) (by decide) (by decide) (by decide) h2
  have s4 := bsiLoop_stop y x_eq y_eq 7 6 7 6 (by decide) (by decide)
  unfold binary_search_interpolate
  rw [s1, s2, s3, s4]
  rfl

/-- Region lemma: bracketing interval between the eighth and ninth table
points. -/
theorem bsi_seg7 (y : ℚ) (h1 : 92/100 < y) (h2 : y < 96/100) :
    binary_search_interpolate y x_eq y_eq =
      some (8/10 + (y - 92/100) * (9/10 - 8/10) / (96/100 - 92/100)) := by
  have s1 := bsiLoop_go_right y x_eq y_eq 0 ((y_eq.length : ℤ) - 1) 4 5
    (y_eq.length + 1) 9 (72/100) (by decide) (by decide) (by decide) (by decide)
    (by decide) (by linarith)
  have s2 := bsiLoop_go_right y x_eq y_eq 5 ((y_eq.length : ℤ) - 1) 6 7 9 8 (86/100)
    (by decide) (by decide) (by decide) (by decide) (by decide) (by linarith)
  have s3 := bsiLoop_go_right y x_eq y_eq 7 ((y_eq.length : ℤ) - 1) 7 8 8 7 (92/100)
    (by decide) (by decide) (by decide) (by decide) (by decide) h1
  have s4 := bsiLoop_go_left y x_eq y_eq 8 ((y_eq.length : ℤ) - 1) 8 7 7 6 (96/100)
    (by decide) (by decide) (by decide) (by decide) (by decide) h2
  have s5 := bsiLoop_stop y x_eq y_eq 8 7 6 5 (by decide) (by decide)
  unfold binary_search_interpolate
  rw [s1, s2, s3, s4, s5]
  rfl


/-- Boolean check that a list of rationals is non-increasing, used to give
the stage-stepper invariant a directly computable form. -/
def nonIncB : List ℚ → Bool
  | a :: b :: rest => decide (b ≤ a) && nonIncB (b :: rest)
  | _ => true

/-- Bridge between the chain formulation of a non-increasing list and its
computable check. -/
theorem chain'_ge_iff_nonIncB :
    ∀ l : List ℚ, List.Chain' (fun a b => b ≤ a) l ↔ nonIncB l = true
  | [] => by simp [nonIncB]
  | [_] => by simp [nonIncB]
  | a :: b :: l => by
    rw [List.chain'_cons, nonIncB, Bool.and_eq_true, decide_eq_true_eq,
      chain'_ge_iff_nonIncB (b :: l)]

/-- Helper: the final iteration count of the stage loop exceeds the count
it started from by at most the fuel it was given. -/
theorem mcCabeLoop_count_le (Rv xDv xWv xiFv yiFv tol : ℚ) (xe ye : List ℚ) :
    ∀ (fuel : ℕ) (x : ℚ) (st : List (ℚ × ℚ)) (ic : ℕ) (l : List (ℚ × ℚ)) (n : ℕ),
      mcCabeLoop Rv xDv xWv xiFv yiFv tol xe ye fuel x st ic = some (l, n) →
      n ≤ ic + fuel := by
  intro fuel
  induction fuel with
  | zero =>
    intro x st ic l n h
    simp only [mcCabeLoop, Option.some.injEq, Prod.mk.injEq] at h
    omega
  | succ fuel ih =>
    intro x st ic l n h
    simp only [mcCabeLoop] at h
    split at h
    · split at h
      · exact absurd h (by simp)
      · split at h
        · simp only [Option.some.injEq, Prod.mk.injEq] at h
          omega
        · have := ih _ _ _ _ _ h
          omega
    · simp only [Option.some.injEq, Prod.mk.injEq] at h
      omega


/-! Claim theorems. -/

/-- Claim C1, counterexample: for the default configuration the
minimum-reflux lookup selects the table point (0.3, 0.52), not (0.4, 0.63)
as the claim states, and neither R_min nor R is within the claimed
tolerance of 1.52 resp. 2.28. -/
theorem c1_counterexample :
    xiEyiE = some (3/10, 13/25) ∧ xiEyiE ≠ some (4/10, 63/100) ∧
    ¬ |R_min - 152/100| ≤ 1/100 ∧ ¬ |R - 228/100| ≤ 1/10 := by
  refine ⟨by decide, by decide, by decide, by decide⟩

/-- Claim C1, amended: for the default configuration the minimum-reflux
lookup selects the first table point with vapor composition above
xF = 0.4, which is (0.3, 0.52), so R_min = (0.98 - 0.52)/(0.52 - 0.3)
= 23/11 and R = 1.5 times R_min = 69/22. -/
theorem c1_amended :
    xiEyiE = some (3/10, 13/25) ∧ R_min = (98/100 - 52/100) / (52/100 - 3/10) ∧
    R_min = 23/11 ∧ R = 69/22 := by
  refine ⟨by decide, by decide, by decide, by decide⟩

/-- Claim C2: for the default configuration the stage loop returns a
result and the successive current_x values it visits form a non-increasing
sequence. -/
theorem c2_current_x_monotone :
    stagesResult.isSome = true ∧ List.Chain' (fun a b => b ≤ a) currentXSeq := by
  constructor
  · decide
  · rw [chain'_ge_iff_nonIncB]
    decide

/-- Claim C3: on the script's equilibrium table the inversion returns the
tabulated liquid value at an exact vapor match, clamps to the lowest
tabulated liquid value below the table, clamps to the highest above it,
and linearly interpolates inside the bracketing interval otherwise. -/
theorem c3_inversion_spec (y : ℚ) :
    (∀ i : ℕ, i < 9 → y = y_eq.getD i 0 →
      binary_search_interpolate y x_eq y_eq = some (x_eq.getD i 0)) ∧
    (y < y_eq.getD 0 0 →
      binary_search_interpolate y x_eq y_eq = some (x_eq.getD 0 0)) ∧
    (y_eq.getD 8 0 < y →
      binary_search_interpolate y x_eq y_eq = some (x_eq.getD 8 0)) ∧
    (∀ i : ℕ, i < 8 → y_eq.getD i 0 < y → y < y_eq.getD (i + 1) 0 →
      binary_search_interpolate y x_eq y_eq =
        some (x_eq.getD i 0 + (y - y_eq.getD i 0) *
          (x_eq.getD (i + 1) 0 - x_eq.getD i 0) /
          (y_eq.getD (i + 1) 0 - y_eq.getD i 0))) := by
  refine ⟨?_, ?_, ?_, ?_⟩
  · intro i hi hy
    interval_cases i <;> (subst hy; decide)
  · intro h
    exact bsi_below y h
  · intro h
    exact bsi_above y h
  · intro i hi h1 h2
    interval_cases i
    · exact bsi_seg0 y h1 h2
    · exact bsi_seg1 y h1 h2
    · exact bsi_seg2 y h1 h2
    · exact bsi_seg3 y h1 h2
    · exact bsi_seg4 y h1 h2
    · exact bsi_seg5 y h1 h2
    · exact bsi_seg6 y h1 h2
    · exact bsi_seg7 y h1 h2

/-- Claim C3, witness: concrete instances of the four behaviours of the
equilibrium inversion. -/
theorem c3_inversion_spec_witness :
    binary_search_interpolate (63/100) x_eq y_eq = some (x_eq.getD 3 0) ∧
    binary_search_interpolate (1/10) x_eq y_eq = some (x_eq.getD 0 0) ∧
    binary_search_interpolate (199/200) x_eq y_eq = some (x_eq.getD 8 0) ∧
    binary_search_interpolate (1/2) x_eq y_eq =
      some (x_eq.getD 1 0 + ((1:ℚ)/2 - y_eq.getD 1 0) *
        (x_eq.getD 2 0 - x_eq.getD 1 0) / (y_eq.getD 2 0 - y_eq.getD 1 0)) :=
  ⟨(c3_inversion_spec (63/100)).1 3 (by norm_num) (by decide),
   (c3_inversion_spec (1/10)).2.1 (by decide),
   (c3_inversion_spec (199/200)).2.2.1 (by decide),
   (c3_inversion_spec (1/2)).2.2.2 1 (by norm_num) (by decide) (by decide)⟩

/-- Claim C4, counterexample: for the default configuration the script
reports 10 theoretical stages but a feed stage of 11, so the claimed bound
of the feed stage by the total stage count fails. -/
theorem c4_counterexample :
    numberOfStages = 10 ∧ feedStage = 11 ∧ ¬ feedStage ≤ numberOfStages := by
  refine ⟨by decide, by decide, by decide⟩

/-- Claim C4, amended: the reported stage count is half the number of
recorded stage points and the reported feed stage counts the stage points
right of the intersection; for the default configuration the stage count
is the positive integer 10 while the feed stage is 11, exceeding the total
stage count by one. -/
theorem c4_amended :
    numberOfStages = stages.length / 2 ∧
    feedStage = (stages.filter (fun s => decide (s.1 > xiF))).length ∧
    0 < numberOfStages ∧ feedStage = numberOfStages + 1 := by
  refine ⟨rfl, rfl, by decide, by decide⟩

/-- Claim C5: the stage loop performs at most as many iterations as the
fuel it is granted (1000 from the script), on exhausted fuel it returns
exactly the stage points accumulated so far, and for the script's run the
post-loop warning fires precisely when the final iteration count reaches
the cap. -/
theorem c5_iteration_cap :
    (∀ (fuel : ℕ) (x : ℚ) (st : List (ℚ × ℚ)) (ic : ℕ) (l : List (ℚ × ℚ)) (n : ℕ),
      mcCabeLoop R xD xW xiF yiF tolerance x_eq y_eq fuel x st ic = some (l, n) →
      n ≤ ic + fuel) ∧
    (∀ (x : ℚ) (st : List (ℚ × ℚ)) (ic : ℕ),
      mcCabeLoop R xD xW xiF yiF tolerance x_eq y_eq 0 x st ic = some (st, ic)) ∧
    (∀ (l : List (ℚ × ℚ)) (n : ℕ), stagesResult = some (l, n) →
      (warning_printed n ↔ n = max_iterations)) := by
  refine ⟨mcCabeLoop_count_le R xD xW xiF yiF tolerance x_eq y_eq, fun x st ic => rfl, ?_⟩
  intro l n h
  have hb : n ≤ 0 + max_iterations :=
    mcCabeLoop_count_le R xD xW xiF yiF tolerance x_eq y_eq max_iterations xD [] 0 l n h
  unfold warning_printed
  omega

/-- Claim C5, witness: the default run ends after 10 iterations, within
the cap, and its warning condition is equivalent to having hit the cap. -/
theorem c5_iteration_cap_witness :
    iteration_count ≤ 0 + max_iterations ∧
    (warning_printed iteration_count ↔ iteration_count = max_iterations) :=
  ⟨c5_iteration_cap.1 max_iterations xD [] 0 stages iteration_count (by decide),
   c5_iteration_cap.2.2 stages iteration_count (by decide)⟩

/-- Claim C6: when no tabulated vapor composition exceeds the feed
composition the minimum-reflux lookup returns no result. -/
theorem c6_lookup_fails (xs ys : List ℚ) (xf xd : ℚ) (h : ∀ yv ∈ ys, yv ≤ xf) :
    find_intersection xs ys xf xd = none := by
  induction xs generalizing ys with
  | nil => cases ys <;> rfl
  | cons x xs ih =>
    cases ys with
    | nil => rfl
    | cons yv ys' =>
      simp only [find_intersection]
      rw [if_neg (not_lt.mpr (h yv (List.mem_cons_self _ _)))]
      exact ih ys' fun z hz => h z (List.mem_cons_of_mem _ hz)

/-- Claim C6, witness: with the feed composition raised to the top
tabulated vapor value 0.96, the lookup on the script's table fails. -/
theorem c6_lookup_fails_witness : find_intersection x_eq y_eq (96/100) xD = none :=
  c6_lookup_fails x_eq y_eq (96/100) xD (by decide)

/-- Claim C7: in each stage-stepping iteration the vapor composition is
the rectifying-line value exactly when the liquid composition exceeds
xiF, and otherwise lies on the line through (xW, xW) and (xiF, yiF). -/
theorem c7_phase_selection (x : ℚ) :
    (xiF < x → stepVapor R xD xW xiF yiF x = R / (R + 1) * x + xD / (R + 1)) ∧
    (x ≤ xiF →
      (xiF - xW) * (stepVapor R xD xW xiF yiF x - xW) = (yiF - xW) * (x - xW)) := by
  constructor
  · intro h
    unfold stepVapor
    rw [if_pos h]
  · intro h
    unfold stepVapor
    rw [if_neg (not_lt.mpr h)]
    have hne : xiF - xW ≠ 0 := by decide
    field_simp
    ring

/-- Claim C7, witness: the rectifying equation at x = 1/2 and the
stripping collinearity at x = 1/5. -/
theorem c7_phase_selection_witness :
    stepVapor R xD xW xiF yiF (1/2) = R / (R + 1) * (1/2) + xD / (R + 1) ∧
    (xiF - xW) * (stepVapor R xD xW xiF yiF (1/5) - xW) = (yiF - xW) * ((1:ℚ)/5 - xW) :=
  ⟨(c7_phase_selection (1/2)).1 (by decide), (c7_phase_selection (1/5)).2 (by decide)⟩

/-- Claim C8: a saturated liquid feed produces exactly the vertical
segment, and any other feed quality produces the sloped line of slope
q/(q-1) and intercept -xF/(q-1) sampled over the whole unit interval. -/
theorem c8_feed_line (xf qq : ℚ) :
    (qq = 1 → feed_line xf qq = ([xf, xf], [0, 1])) ∧
    (qq ≠ 1 →
      (feed_line xf qq).1.head? = some 0 ∧ (feed_line xf qq).1.getLast? = some 1 ∧
      (feed_line xf qq).2 =
        (feed_line xf qq).1.map (fun x => qq / (qq - 1) * x + (-xf / (qq - 1)))) := by
  constructor
  · intro h
    subst h
    rfl
  · intro h
    unfold feed_line
    rw [if_neg h]
    refine ⟨?_, ?_, rfl⟩
    · show (linspace 0 1 100).head? = some 0
      decide
    · show (linspace 0 1 100).getLast? = some 1
      decide

/-- Claim C8, witness: the vertical segment for the default feed at q = 1
and the sloped line for q = 2. -/
theorem c8_feed_line_witness :
    feed_line xF 1 = ([xF, xF], [0, 1]) ∧
    ((feed_line xF 2).1.head? = some 0 ∧ (feed_line xF 2).1.getLast? = some 1 ∧
      (feed_line xF 2).2 =
        (feed_line xF 2).1.map (fun x => 2 / (2 - 1) * x + (-xF / (2 - 1)))) :=
  ⟨(c8_feed_line xF 1).1 rfl, (c8_feed_line xF 2).2 (by norm_num)⟩

/-- Claim C9: the pipeline is a pure function of the configuration, so two
runs on equal configurations return equal minimum reflux, operating
reflux, stage count and column diameter. -/
theorem c9_deterministic (c₁ c₂ : Config) (h : c₁ = c₂) : pipeline c₁ = pipeline c₂ := by
  rw [h]

/-- Claim C9, witness: rerunning the pipeline on the script's own
configuration reproduces its outputs. -/
theorem c9_deterministic_witness : pipeline defaultConfig = pipeline defaultConfig :=
  c9_deterministic defaultConfig defaultConfig rfl

/-- Claim C10: on the script's table the equilibrium inversion always
terminates with a value, and that value lies between the lowest and
highest tabulated liquid compositions. -/
theorem c10_inversion_range (y : ℚ) :
    ∃ r : ℚ, binary_search_interpolate y x_eq y_eq = some r ∧ 1/10 ≤ r ∧ r ≤ 9/10 := by
  rcases lt_trichotomy y (22/100) with h0 | h0 | h0
  · exact ⟨1/10, bsi_below y h0, by norm_num, by norm_num⟩
  · exact ⟨1/10, by rw [h0]; decide, by norm_num, by norm_num⟩
  rcases lt_trichotomy y (39/100) with h1 | h1 | h1
  · exact ⟨_, bsi_seg0 y h0 h1, by constructor <;> (norm_num; linarith)⟩
  · exact ⟨2/10, by rw [h1]; decide, by norm_num, by norm_num⟩
  rcases lt_trichotomy y (52/100) with h2 | h2 | h2
  · exact ⟨_, bsi_seg1 y h1 h2, by constructor <;> (norm_num; linarith)⟩
  · exact ⟨3/10, by rw [h2]; decide, by norm_num, by norm_num⟩
  rcases lt_trichotomy y (63/100) with h3 | h3 | h3
  · exact ⟨_, bsi_seg2 y h2 h3, by constructor <;> (norm_num; linarith)⟩
  · exact ⟨4/10, by rw [h3]; decide, by norm_num, by norm_num⟩
  rcases lt_trichotomy y (72/100) with h4 | h4 | h4
  · exact ⟨_, bsi_seg3 y h3 h4, by constructor <;> (norm_num; linarith)⟩
  · exact ⟨5/10, by rw [h4]; decide, by norm_num, by norm_num⟩
  rcases lt_trichotomy y (80/100) with h5 | h5 | h5
  · exact ⟨_, bsi_seg4 y h4 h5, by constructor <;> (norm_num; linarith)⟩
  · exact ⟨6/10, by rw [h5]; decide, by norm_num, by norm_num⟩
  rcases lt_trichotomy y (86/100) with h6 | h6 | h6
  · exact ⟨_, bsi_seg5 y h5 h6, by constructor <;> (norm_num; linarith)⟩
  · exact ⟨7/10, by rw [h6]; decide, by norm_num, by norm_num⟩
  rcases lt_trichotomy y (92/100) with h7 | h7 | h7
  · exact ⟨_, bsi_seg6 y h6 h7, by constructor <;> (norm_num; linarith)⟩
  · exact ⟨8/10, by rw [h7]; decide, by norm_num, by norm_num⟩
  rcases lt_trichotomy y (96/100) with h8 | h8 | h8
  · exact ⟨_, bsi_seg7 y h7 h8, by constructor <;> (norm_num; linarith)⟩
  · exact ⟨9/10, by rw [h8]; decide, by norm_num, by norm_num⟩
  · exact ⟨9/10, bsi_above y h8, by norm_num, by norm_num⟩

end

end McCabeThiele
